import Mathlib

/-!
Shallow embedding of the statistics / transform core of `server.py`
(`analyze_data_for_chart`, `transform_data_cumulative`,
`transform_data_moving_average`, `transform_data_percentage_change`),
with theorems settling the specification claims about them.

Numbers are modelled as exact rationals; Python's `round(x, 2)` is modelled
as round-half-to-even at two decimal places on the exact value.  A Python
`ZeroDivisionError` escaping a function is modelled with `Except`.
-/

namespace ChartMcp

/-- Python exception kinds relevant to this module.  `zeroDivisionError`
models Python's built-in `ZeroDivisionError`.  `invalidParameterError` is
the structured parameter-validation failure named by the specification's
error taxonomy; no code in `server.py` constructs it. -/
inductive PyError where
  | zeroDivisionError : PyError
  | invalidParameterError : PyError
deriving DecidableEq, Repr

/-- Round-half-to-even to the nearest integer, as Python's `round` does on
exact values. -/
def roundHalfEven (x : ℚ) : ℤ :=
  let f := ⌊x⌋
  if x - f < 1/2 then f
  else if 1/2 < x - f then f + 1
  else if f % 2 = 0 then f else f + 1

/-- Python's `round(x, 2)`: round-half-to-even at two decimal places. -/
def round2 (x : ℚ) : ℚ := (roundHalfEven (100 * x) : ℚ) / 100

/-- `transform_data_cumulative`'s loop: running total accumulation, one
output per input element. -/
def cumulativeFrom (running_sum : ℚ) : List ℚ → List ℚ
  | [] => []
  | v :: rest => (running_sum + v) :: cumulativeFrom (running_sum + v) rest

/-- `transform_data_cumulative` from `server.py`: cumulative-sum series
(the derived `"cumulative"` list of the returned object). -/
def transform_data_cumulative (data : List ℚ) : List ℚ :=
  cumulativeFrom 0 data

/-- The window slice `data[max(0, i - window_size + 1) : i + 1]` used by
`transform_data_moving_average` at index `i`. -/
def windowAt (data : List ℚ) (window_size : ℤ) (i : ℕ) : List ℚ :=
  let start := (max 0 ((i : ℤ) - window_size + 1)).toNat
  (data.drop start).take (i + 1 - start)

/-- One iteration of the moving-average loop:
`sum(window) / len(window)`, raising `ZeroDivisionError` on an empty
window. -/
def movingAvgAt (data : List ℚ) (window_size : ℤ) (i : ℕ) : Except PyError ℚ :=
  let window := windowAt data window_size i
  if window.length = 0 then .error .zeroDivisionError
  else .ok (window.sum / (window.length : ℚ))

/-- The moving-average loop over a list of indices, stopping at the first
raised exception, as Python's `for` loop does. -/
def movingAvgLoop (data : List ℚ) (window_size : ℤ) : List ℕ → Except PyError (List ℚ)
  | [] => .ok []
  | i :: rest =>
    match movingAvgAt data window_size i with
    | .error e => .error e
    | .ok v =>
      match movingAvgLoop data window_size rest with
      | .error e => .error e
      | .ok vs => .ok (v :: vs)

/-- `transform_data_moving_average` from `server.py`: the derived
`"moving_average"` list (each value rounded to 2 decimals), or the
exception the loop raises. -/
def transform_data_moving_average (data : List ℚ) (window_size : ℤ) : Except PyError (List ℚ) :=
  (movingAvgLoop data window_size (List.range data.length)).map (fun l => l.map round2)

/-- `transform_data_percentage_change`'s loop from the second element on:
`prev` is `data[i-1]`, the head of the argument is `data[i]`. -/
def pctChangeFrom (prev : ℚ) : List ℚ → List ℚ
  | [] => []
  | v :: rest =>
    (if prev ≠ 0 then round2 ((v - prev) / prev * 100) else 0) :: pctChangeFrom v rest

/-- One iteration of the percentage-change loop, written on the pair
`(data[i-1], data[i])`: `0` on a zero baseline, otherwise
`round(((data[i] - data[i-1]) / data[i-1]) * 100, 2)`. -/
def pctStep (p v : ℚ) : ℚ := if p = 0 then 0 else round2 ((v - p) / p * 100)

/-- `transform_data_percentage_change` from `server.py`: the derived
`"percentage_change"` list.  The leading `0` is the unconditional
initializer `pct_change = [0]`. -/
def transform_data_percentage_change (data : List ℚ) : List ℚ :=
  0 :: (match data with
        | [] => []
        | v :: rest => pctChangeFrom v rest)

/-- Round-half-to-even on a real value, as `roundHalfEven` but for the
(irrational) standard deviation. -/
noncomputable def roundHalfEvenR (x : ℝ) : ℤ :=
  let f := ⌊x⌋
  if x - f < 1/2 then f
  else if 1/2 < x - f then f + 1
  else if f % 2 = 0 then f else f + 1

/-- `round(x, 2)` on a real value. -/
noncomputable def round2R (x : ℝ) : ℝ := (roundHalfEvenR (100 * x) : ℝ) / 100

/-- A `(type, reason)` chart suggestion of `analyze_data_for_chart`. -/
structure ChartSuggestion where
  type : String
  reason : String
deriving DecidableEq, Repr

def sug_pie : ChartSuggestion :=
  ⟨"pie", "Small dataset works well with pie chart for proportions"⟩

def sug_bar : ChartSuggestion :=
  ⟨"bar", "Bar chart for easy comparison of values"⟩

def sug_line : ChartSuggestion :=
  ⟨"line", "Line chart for trends over time or sequence"⟩

def sug_area : ChartSuggestion :=
  ⟨"area", "Area chart to show cumulative trends"⟩

def sug_scatter : ChartSuggestion :=
  ⟨"scatter", "High variability suggests scatter plot for distribution"⟩

/-- `mean = total / count` (exact value, before the report's rounding). -/
def meanOf (data : List ℚ) : ℚ := data.sum / (data.length : ℚ)

/-- `variance = sum((x - mean) ** 2 for x in data) / count`: population
variance, divisor `count` (exact value, before the report's rounding). -/
def varOf (data : List ℚ) : ℚ :=
  (data.map (fun x => (x - meanOf data) ^ 2)).sum / (data.length : ℚ)

/-- Python's `min(data)` (the empty case is never reached by the code). -/
def pyMin : List ℚ → ℚ
  | [] => 0
  | v :: rest => rest.foldl min v

/-- Python's `max(data)` (the empty case is never reached by the code). -/
def pyMax : List ℚ → ℚ
  | [] => 0
  | v :: rest => rest.foldl max v

/-- The median as the code computes it from `sorted_data = sorted(data)`:
`sorted_data[count // 2]` when the count is odd, otherwise the average of
`sorted_data[count // 2 - 1]` and `sorted_data[count // 2]`. -/
def medianOf (data : List ℚ) : ℚ :=
  let sorted_data := data.mergeSort
  let count := data.length
  if count % 2 = 1 then sorted_data.getD (count / 2) 0
  else (sorted_data.getD (count / 2 - 1) 0 + sorted_data.getD (count / 2) 0) / 2

/-- The high-variability test `std_dev / mean > 0.5` of
`analyze_data_for_chart`, on the exact values and with the square root
eliminated: for `mean ≠ 0`, `Real.sqrt variance / mean > 1/2` holds iff
`0 < mean` and `mean ^ 2 < 4 * variance` (proved in
`scatterCond_iff_sqrt` below). -/
def scatterCond (variance mean : ℚ) : Prop :=
  0 < mean ∧ mean ^ 2 < 4 * variance

instance (v m : ℚ) : Decidable (scatterCond v m) := by
  unfold scatterCond; infer_instance

/-- The suggestion-building block of `analyze_data_for_chart`: the two
count branches, then the high-variability check, whose division
`std_dev / mean` raises `ZeroDivisionError` when the mean is zero. -/
def suggestionsFor (count : ℕ) (variance mean : ℚ) :
    Except PyError (List ChartSuggestion) :=
  let s1 := if count ≤ 10 then [sug_pie, sug_bar] else []
  let s2 := s1 ++ (if 10 < count then [sug_line, sug_area] else [])
  if mean = 0 then .error .zeroDivisionError
  else .ok (s2 ++ (if scatterCond variance mean then [sug_scatter] else []))

/-- The `"statistics"` object of the analysis report.  `std_dev` is the
real value `round(variance ** 0.5, 2)`, the only irrational quantity of
the module. -/
structure Statistics where
  count : ℕ
  sum : ℚ
  mean : ℚ
  median : ℚ
  min : ℚ
  max : ℚ
  range : ℚ
  std_dev : ℝ
  variance : ℚ

/-- The `"data_summary"` object of the analysis report. -/
structure DataSummary where
  has_labels : Bool
  label_count : ℕ
deriving DecidableEq, Repr

/-- The full analysis report of `analyze_data_for_chart`. -/
structure Analysis where
  statistics : Statistics
  suggested_charts : List ChartSuggestion
  data_summary : DataSummary

/-- The two non-exceptional outcomes of `analyze_data_for_chart`: the
structured error object `{"error": "No data provided"}` returned for
empty input, or a full analysis report. -/
inductive AnalyzeOutput where
  | errorResult (msg : String) : AnalyzeOutput
  | analysis (a : Analysis) : AnalyzeOutput

/-- `analyze_data_for_chart` from `server.py`.  Empty input yields the
structured error object; otherwise the statistics are computed and the
suggestion rules run, raising `ZeroDivisionError` when the mean is
zero. -/
noncomputable def analyze_data_for_chart (data : List ℚ)
    (labels : Option (List String)) : Except PyError AnalyzeOutput :=
  if data = [] then .ok (.errorResult "No data provided")
  else
    (suggestionsFor data.length (varOf data) (meanOf data)).map (fun sugg =>
      .analysis
        { statistics :=
            { count := data.length
              sum := data.sum
              mean := round2 (meanOf data)
              median := medianOf data
              min := pyMin data
              max := pyMax data
              range := pyMax data - pyMin data
              std_dev := round2R (Real.sqrt ((varOf data : ℚ) : ℝ))
              variance := round2 (varOf data) }
          suggested_charts := sugg
          data_summary :=
            { has_labels := labels.isSome
              label_count := (labels.getD []).length } })

example : transform_data_cumulative [1, 2, 3] = [1, 3, 6] := by
  norm_num [transform_data_cumulative, cumulativeFrom]
example : transform_data_cumulative [] = [] := rfl
example : transform_data_moving_average [10, 20, 30, 40, 50] 3 =
    .ok [10, 15, 20, 30, 40] := by
  norm_num [transform_data_moving_average, movingAvgLoop, movingAvgAt, windowAt,
    List.range, List.range.loop, round2, roundHalfEven, Int.toNat_ofNat,
    List.take, List.drop, Except.map]
example : transform_data_percentage_change [100, 150, 120] =
    [0, 50, -20] := by
  norm_num [transform_data_percentage_change, pctChangeFrom, round2, roundHalfEven]
example : transform_data_percentage_change [0, 50] = [0, 0] := by
  norm_num [transform_data_percentage_change, pctChangeFrom]
example : transform_data_percentage_change [] = [0] := rfl

/-! ### Helper lemmas -/

theorem cumulativeFrom_length (r : ℚ) (l : List ℚ) :
    (cumulativeFrom r l).length = l.length := by
  induction l generalizing r with
  | nil => rfl
  | cons v rest ih => simp [cumulativeFrom, ih]

theorem cumulativeFrom_getD (l : List ℚ) (r : ℚ) (i : ℕ) (h : i < l.length) :
    (cumulativeFrom r l).getD i 0 = r + (l.take (i + 1)).sum := by
  induction l generalizing r i with
  | nil => simp at h
  | cons v rest ih =>
    cases i with
    | zero => simp [cumulativeFrom]
    | succ j =>
      have hj : j < rest.length := by simpa using h
      rw [cumulativeFrom, List.getD_cons_succ, ih (r + v) j hj,
        List.take_succ_cons, List.sum_cons]
      ring

theorem pctChangeFrom_length (p : ℚ) (l : List ℚ) :
    (pctChangeFrom p l).length = l.length := by
  induction l generalizing p with
  | nil => rfl
  | cons v rest ih => simp [pctChangeFrom, ih]

theorem pctChangeFrom_getD (l : List ℚ) (p : ℚ) (i : ℕ) (h : i < l.length) :
    (pctChangeFrom p l).getD i 0 = pctStep ((p :: l).getD i 0) (l.getD i 0) := by
  induction l generalizing p i with
  | nil => simp at h
  | cons v rest ih =>
    cases i with
    | zero =>
      by_cases hp : p = 0 <;> simp [pctChangeFrom, pctStep, hp]
    | succ j =>
      have hj : j < rest.length := by simpa using h
      simpa [pctChangeFrom] using ih v j hj

theorem movingAvgLoop_ok (data : List ℚ) (w : ℤ) (g : ℕ → ℚ) (l : List ℕ)
    (h : ∀ i ∈ l, movingAvgAt data w i = .ok (g i)) :
    movingAvgLoop data w l = .ok (l.map g) := by
  induction l with
  | nil => rfl
  | cons i rest ih =>
    rw [movingAvgLoop, h i (List.mem_cons_self i rest),
      ih (fun j hj => h j (List.mem_cons_of_mem i hj))]
    rfl

theorem windowAt_length (data : List ℚ) (w : ℤ) (i : ℕ)
    (hw : 1 ≤ w) (hi : i < data.length) :
    (windowAt data w i).length = i + 1 - (max 0 ((i : ℤ) - w + 1)).toNat := by
  simp only [windowAt, List.length_take, List.length_drop]
  omega

theorem windowAt_length_pos (data : List ℚ) (w : ℤ) (i : ℕ)
    (hw : 1 ≤ w) (hi : i < data.length) : 0 < (windowAt data w i).length := by
  rw [windowAt_length data w i hw hi]
  omega

theorem movingAvgAt_ok (data : List ℚ) (w : ℤ) (i : ℕ)
    (hw : 1 ≤ w) (hi : i < data.length) :
    movingAvgAt data w i =
      .ok ((windowAt data w i).sum / ((windowAt data w i).length : ℚ)) := by
  have hpos := windowAt_length_pos data w i hw hi
  simp only [movingAvgAt]
  rw [if_neg (by omega)]

theorem moving_average_ok (data : List ℚ) (w : ℤ) (hw : 1 ≤ w) :
    transform_data_moving_average data w =
      .ok ((List.range data.length).map (fun i =>
        round2 ((windowAt data w i).sum / ((windowAt data w i).length : ℚ)))) := by
  rw [transform_data_moving_average,
    movingAvgLoop_ok data w
      (fun i => (windowAt data w i).sum / ((windowAt data w i).length : ℚ))
      (List.range data.length)
      (fun i hi => movingAvgAt_ok data w i hw (List.mem_range.mp hi))]
  simp [Except.map, List.map_map, Function.comp]

theorem movingAvgAt_zero_error (data : List ℚ) (w : ℤ) (hw : w ≤ 0) :
    movingAvgAt data w 0 = .error .zeroDivisionError := by
  have h1 : 1 ≤ (max 0 (-w + 1)).toNat := by omega
  simp [movingAvgAt, windowAt]
  omega

theorem moving_average_error (data : List ℚ) (w : ℤ)
    (hd : data ≠ []) (hw : w ≤ 0) :
    transform_data_moving_average data w = .error .zeroDivisionError := by
  obtain ⟨v, rest, rfl⟩ := List.exists_cons_of_ne_nil hd
  rw [transform_data_moving_average]
  have hr : List.range (v :: rest).length =
      0 :: (List.range rest.length).map Nat.succ := by
    simp [List.range_succ_eq_map]
  rw [hr, movingAvgLoop, movingAvgAt_zero_error _ w hw]
  rfl

theorem scatterCond_iff_sqrt (v m : ℚ) :
    scatterCond v m ↔ (1 : ℝ) / 2 < Real.sqrt (v : ℝ) / (m : ℝ) := by
  by_cases hm : 0 < m
  · have hmR : (0 : ℝ) < (m : ℝ) := by exact_mod_cast hm
    have h1 : ((1 : ℝ) / 2 < Real.sqrt (v : ℝ) / (m : ℝ)) ↔
        (1 : ℝ) / 2 * (m : ℝ) < Real.sqrt (v : ℝ) := lt_div_iff₀ hmR
    have h2 : ((1 : ℝ) / 2 * (m : ℝ) < Real.sqrt (v : ℝ)) ↔
        ((1 : ℝ) / 2 * (m : ℝ)) ^ 2 < (v : ℝ) :=
      Real.lt_sqrt (by positivity)
    have h3 : (((1 : ℝ) / 2 * (m : ℝ)) ^ 2 < (v : ℝ)) ↔
        ((m : ℝ)) ^ 2 < 4 * (v : ℝ) := by constructor <;> intro hx <;> nlinarith
    have h4 : (((m : ℝ)) ^ 2 < 4 * (v : ℝ)) ↔ m ^ 2 < 4 * v := by
      constructor <;> intro hx <;> exact_mod_cast hx
    rw [h1, h2, h3, h4]
    unfold scatterCond
    exact ⟨fun hx => hx.2, fun hx => ⟨hm, hx⟩⟩
  · constructor
    · intro hx; exact absurd hx.1 hm
    · intro hx
      exfalso
      rcases eq_or_lt_of_le (not_lt.mp hm) with hm0 | hmneg
      · subst hm0
        rw [Rat.cast_zero, div_zero] at hx
        linarith
      · have hmR : (m : ℝ) < 0 := by exact_mod_cast hmneg
        have : Real.sqrt (v : ℝ) / (m : ℝ) ≤ 0 :=
          div_nonpos_iff.mpr (Or.inl ⟨Real.sqrt_nonneg _, hmR.le⟩)
        linarith

theorem suggestionsFor_ok (count : ℕ) (v m : ℚ) (hm : m ≠ 0) :
    suggestionsFor count v m =
      .ok (((if count ≤ 10 then [sug_pie, sug_bar] else []) ++
        (if 10 < count then [sug_line, sug_area] else [])) ++
        (if scatterCond v m then [sug_scatter] else [])) := by
  simp [suggestionsFor, hm]

theorem analyze_ok (data : List ℚ) (labels : Option (List String))
    (h : data ≠ []) (hm : meanOf data ≠ 0) :
    analyze_data_for_chart data labels = .ok (.analysis
      ⟨⟨data.length, data.sum, round2 (meanOf data), medianOf data, pyMin data,
        pyMax data, pyMax data - pyMin data,
        round2R (Real.sqrt ((varOf data : ℚ) : ℝ)), round2 (varOf data)⟩,
       ((if data.length ≤ 10 then [sug_pie, sug_bar] else []) ++
        (if 10 < data.length then [sug_line, sug_area] else [])) ++
        (if scatterCond (varOf data) (meanOf data) then [sug_scatter] else []),
       ⟨labels.isSome, (labels.getD []).length⟩⟩) := by
  rw [analyze_data_for_chart, if_neg h, suggestionsFor_ok _ _ _ hm]
  rfl

theorem analyze_raises (data : List ℚ) (labels : Option (List String))
    (h : data ≠ []) (hm : meanOf data = 0) :
    analyze_data_for_chart data labels = .error .zeroDivisionError := by
  rw [analyze_data_for_chart, if_neg h]
  simp [suggestionsFor, hm, Except.map]

/-! ### Claims about the series transforms -/

/-- C1 counterexample: `movingAverage` does not fail on every series with a
non-positive window — on the empty series it succeeds with empty output —
and where it does fail, the failure is a raised `ZeroDivisionError` from
averaging an empty window slice, not a structured `InvalidParameterError`
result. -/
theorem C1_counterexample :
    transform_data_moving_average [] 0 = .ok [] ∧
    transform_data_moving_average [1] 0 = .error .zeroDivisionError ∧
    PyError.zeroDivisionError ≠ PyError.invalidParameterError := by
  refine ⟨rfl, moving_average_error [1] 0 (by simp) (by norm_num), by simp⟩

/-- C1 (amended): for every non-empty numeric series and every integer
`windowSize ≤ 0`, `movingAverage` fails by raising `ZeroDivisionError`
(there is no input validation and nothing produces an
`InvalidParameterError`), so it never completes a computation with a
non-positive window on non-empty input; `cumulativeSum` and
`percentageChange` are total functions (they return plain lists). -/
theorem C1_nonpos_window_raises (S : List ℚ) (w : ℤ)
    (hS : S ≠ []) (hw : w ≤ 0) :
    transform_data_moving_average S w = .error .zeroDivisionError :=
  moving_average_error S w hS hw

theorem C1_witness :
    (([5] : List ℚ) ≠ [] ∧ (-1 : ℤ) ≤ 0) ∧
    transform_data_moving_average [5] (-1) = .error .zeroDivisionError :=
  ⟨⟨by simp, by norm_num⟩, C1_nonpos_window_raises [5] (-1) (by simp) (by norm_num)⟩

/-- C3 counterexample: on the empty series `percentageChange` returns
`[0]` (the unconditional initializer), whose length `1` differs from the
input length `0`. -/
theorem C3_counterexample :
    transform_data_percentage_change [] = [0] ∧
    (transform_data_percentage_change []).length ≠ ([] : List ℚ).length := by
  refine ⟨rfl, by simp [transform_data_percentage_change]⟩

/-- C3 (amended): the empty series yields `[0]` (length 1, not 0); for
every non-empty series the output has the input's length, its first
element is `0`, and for `1 ≤ i < length` the element at `i` is `0` when
`series[i-1] = 0` and otherwise
`round(((series[i] - series[i-1]) / series[i-1]) * 100, 2)`. -/
theorem C3_pct_change_pointwise :
    transform_data_percentage_change [] = [0] ∧
    ∀ (S : List ℚ), S ≠ [] →
      (transform_data_percentage_change S).length = S.length ∧
      (transform_data_percentage_change S).getD 0 0 = 0 ∧
      ∀ i, 1 ≤ i → i < S.length →
        (transform_data_percentage_change S).getD i 0 =
          (if S.getD (i - 1) 0 = 0 then 0
           else round2 ((S.getD i 0 - S.getD (i - 1) 0) / S.getD (i - 1) 0 * 100)) := by
  refine ⟨rfl, ?_⟩
  intro S hS
  obtain ⟨v, rest, rfl⟩ := List.exists_cons_of_ne_nil hS
  refine ⟨by simp [transform_data_percentage_change, pctChangeFrom_length], rfl, ?_⟩
  intro i h1 hi
  obtain ⟨j, rfl⟩ : ∃ j, i = j + 1 := ⟨i - 1, by omega⟩
  have hj : j < rest.length := by simpa using hi
  have : (transform_data_percentage_change (v :: rest)).getD (j + 1) 0 =
      (pctChangeFrom v rest).getD j 0 := by
    simp [transform_data_percentage_change]
  rw [this, pctChangeFrom_getD rest v j hj]
  simp only [Nat.add_sub_cancel, pctStep, List.getD_cons_succ]

theorem C3_witness :
    transform_data_percentage_change [] = [0] ∧
    (([0, 50] : List ℚ) ≠ [] ∧
      (transform_data_percentage_change [0, 50]).length = ([0, 50] : List ℚ).length ∧
      (transform_data_percentage_change [0, 50]).getD 0 0 = 0 ∧
      ∀ i, 1 ≤ i → i < ([0, 50] : List ℚ).length →
        (transform_data_percentage_change [0, 50]).getD i 0 =
          (if ([0, 50] : List ℚ).getD (i - 1) 0 = 0 then 0
           else round2 ((([0, 50] : List ℚ).getD i 0 - ([0, 50] : List ℚ).getD (i - 1) 0) /
             ([0, 50] : List ℚ).getD (i - 1) 0 * 100))) :=
  ⟨C3_pct_change_pointwise.1, ⟨by simp, C3_pct_change_pointwise.2 [0, 50] (by simp)⟩⟩

/-- C5: for every series and every positive integer window size,
`movingAverage` succeeds, preserves the length, and the value at each
index `i` is the average of the trailing window
`data[max(0, i - windowSize + 1) .. i]` (its sum divided by its length),
rounded to two decimals; near the start the window is the shrunken
partial slice of length `i + 1 - max(0, i - windowSize + 1)`, not skipped
or padded. -/
theorem C5_moving_average_pointwise (data : List ℚ) (w : ℤ) (hw : 1 ≤ w) :
    ∃ out, transform_data_moving_average data w = .ok out ∧
      out.length = data.length ∧
      ∀ i, i < data.length →
        out.getD i 0 =
          round2 ((windowAt data w i).sum / ((windowAt data w i).length : ℚ)) ∧
        (windowAt data w i).length = i + 1 - (max 0 ((i : ℤ) - w + 1)).toNat := by
  refine ⟨_, moving_average_ok data w hw, by simp, ?_⟩
  intro i hi
  refine ⟨?_, windowAt_length data w i hw hi⟩
  rw [List.getD_eq_getElem _ _ (by simpa using hi)]
  simp

theorem C5_witness :
    (1 : ℤ) ≤ 3 ∧
    ∃ out, transform_data_moving_average [10, 20, 30, 40, 50] 3 = .ok out ∧
      out.length = ([10, 20, 30, 40, 50] : List ℚ).length ∧
      ∀ i, i < ([10, 20, 30, 40, 50] : List ℚ).length →
        out.getD i 0 =
          round2 ((windowAt [10, 20, 30, 40, 50] 3 i).sum /
            ((windowAt [10, 20, 30, 40, 50] 3 i).length : ℚ)) ∧
        (windowAt [10, 20, 30, 40, 50] 3 i).length =
          i + 1 - (max 0 ((i : ℤ) - 3 + 1)).toNat :=
  ⟨by norm_num, C5_moving_average_pointwise [10, 20, 30, 40, 50] 3 (by norm_num)⟩

/-- C8: `cumulativeSum` preserves the length, its value at each index `i`
is the sum of the first `i + 1` input elements, the last value of a
non-empty input is the total sum, and the empty series yields the empty
output. -/
theorem C8_cumulative_running_total :
    transform_data_cumulative [] = [] ∧
    ∀ (S : List ℚ),
      (transform_data_cumulative S).length = S.length ∧
      (∀ i, i < S.length →
        (transform_data_cumulative S).getD i 0 = (S.take (i + 1)).sum) ∧
      (S ≠ [] →
        (transform_data_cumulative S).getD (S.length - 1) 0 = S.sum) := by
  refine ⟨rfl, ?_⟩
  intro S
  refine ⟨cumulativeFrom_length 0 S, ?_, ?_⟩
  · intro i hi
    rw [transform_data_cumulative, cumulativeFrom_getD S 0 i hi, zero_add]
  · intro hS
    have hlen : 0 < S.length := List.length_pos.mpr hS
    rw [transform_data_cumulative, cumulativeFrom_getD S 0 (S.length - 1) (by omega),
      zero_add, Nat.sub_add_cancel hlen, List.take_length]

theorem C8_witness :
    transform_data_cumulative [] = [] ∧
    ((2 : ℕ) < ([1, 2, 3] : List ℚ).length ∧
      (transform_data_cumulative [1, 2, 3]).getD 2 0 = (([1, 2, 3] : List ℚ).take 3).sum) ∧
    (([1, 2, 3] : List ℚ) ≠ [] ∧
      (transform_data_cumulative [1, 2, 3]).getD (([1, 2, 3] : List ℚ).length - 1) 0 =
        ([1, 2, 3] : List ℚ).sum) :=
  ⟨C8_cumulative_running_total.1,
   ⟨by norm_num, (C8_cumulative_running_total.2 [1, 2, 3]).2.1 2 (by norm_num)⟩,
   ⟨by simp, (C8_cumulative_running_total.2 [1, 2, 3]).2.2 (by simp)⟩⟩

/-- C10: for the empty series `movingAverage` succeeds with empty output
for every integer window size, including zero and negative ones, and
these are the only inputs on which a non-positive window size does not
cause a failure: every non-empty series with a non-positive window size
raises an error. -/
theorem C10_empty_series_any_window :
    (∀ w : ℤ, transform_data_moving_average [] w = .ok []) ∧
    ∀ (S : List ℚ) (w : ℤ), S ≠ [] → w ≤ 0 →
      ∃ e, transform_data_moving_average S w = .error e := by
  refine ⟨fun w => rfl, ?_⟩
  intro S w hS hw
  exact ⟨.zeroDivisionError, moving_average_error S w hS hw⟩

theorem C10_witness :
    transform_data_moving_average [] (-3) = .ok [] ∧
    (([7] : List ℚ) ≠ [] ∧ (-2 : ℤ) ≤ 0 ∧
      ∃ e, transform_data_moving_average [7] (-2) = .error e) :=
  ⟨C10_empty_series_any_window.1 (-3),
   ⟨by simp, by norm_num, C10_empty_series_any_window.2 [7] (-2) (by simp) (by norm_num)⟩⟩

/-! ### Claims about `analyze_data_for_chart` -/

/-- C2: contrary to the claim, a non-empty series with mean `0` does not
complete with the coefficient-of-variation check skipped: the code
evaluates `std_dev / mean` unguarded and raises `ZeroDivisionError`
(here at the series `[0]`). -/
theorem C2_mean_zero_raises :
    analyze_data_for_chart [0] none = .error .zeroDivisionError :=
  analyze_raises [0] none (by simp) (by norm_num [meanOf])

/-- C4 counterexample: the structured empty-input error is not the only
failure mode of `analyze`: the non-empty series `[-1, 1]` has mean `0`
and makes `analyze` raise `ZeroDivisionError`. -/
theorem C4_counterexample :
    analyze_data_for_chart [-1, 1] none = .error .zeroDivisionError :=
  analyze_raises [-1, 1] none (by simp) (by norm_num [meanOf])

/-- C4 (amended): `analyze` on the empty series returns the structured
error result `{"error": "No data provided"}` (no statistics are
computed), and on non-empty series it succeeds exactly when the mean is
nonzero; when the mean is zero it raises `ZeroDivisionError`, a second
failure mode beyond the empty-input error. -/
theorem C4_failure_modes :
    (∀ labels, analyze_data_for_chart [] labels = .ok (.errorResult "No data provided")) ∧
    (∀ (S : List ℚ) labels, S ≠ [] → meanOf S ≠ 0 →
      ∃ a, analyze_data_for_chart S labels = .ok (.analysis a)) ∧
    (∀ (S : List ℚ) labels, S ≠ [] → meanOf S = 0 →
      analyze_data_for_chart S labels = .error .zeroDivisionError) := by
  refine ⟨fun _ => rfl, ?_, fun S labels hS hm => analyze_raises S labels hS hm⟩
  intro S labels hS hm
  exact ⟨_, analyze_ok S labels hS hm⟩

theorem C4_witness :
    analyze_data_for_chart [] none = .ok (.errorResult "No data provided") ∧
    (([2] : List ℚ) ≠ [] ∧ meanOf [2] ≠ 0 ∧
      ∃ a, analyze_data_for_chart [2] none = .ok (.analysis a)) ∧
    (([0, 0] : List ℚ) ≠ [] ∧ meanOf [0, 0] = 0 ∧
      analyze_data_for_chart [0, 0] none = .error .zeroDivisionError) :=
  ⟨C4_failure_modes.1 none,
   ⟨by simp, by norm_num [meanOf],
    C4_failure_modes.2.1 [2] none (by simp) (by norm_num [meanOf])⟩,
   ⟨by simp, by norm_num [meanOf],
    C4_failure_modes.2.2 [0, 0] none (by simp) (by norm_num [meanOf])⟩⟩

/-- C6: whenever `analyze` produces a report (non-empty series, nonzero
mean — the mean-zero crash is settled under C2/C4), the reported median
is determined by the ascending sorted arrangement of the series: the
middle element for an odd count, the average of the two central elements
for an even count.  `t` ranges over any sorted permutation of the input,
so the statement does not depend on the sorting algorithm used. -/
theorem C6_median_of_sorted (S t : List ℚ) (hS : S ≠ []) (hm : meanOf S ≠ 0)
    (hperm : S.Perm t) (hsort : t.Sorted (· ≤ ·)) :
    ∃ a, analyze_data_for_chart S none = .ok (.analysis a) ∧
      a.statistics.median =
        (if S.length % 2 = 1 then t.getD (S.length / 2) 0
         else (t.getD (S.length / 2 - 1) 0 + t.getD (S.length / 2) 0) / 2) := by
  refine ⟨_, analyze_ok S none hS hm, ?_⟩
  have ht : t = S.mergeSort :=
    List.eq_of_perm_of_sorted (hperm.symm.trans (S.mergeSort_perm _).symm)
      hsort (List.sorted_mergeSort' S)
  subst ht
  rfl

theorem C6_witness :
    (([1, 2, 3, 4] : List ℚ) ≠ [] ∧ meanOf [1, 2, 3, 4] ≠ 0 ∧
      ([1, 2, 3, 4] : List ℚ).Perm [1, 2, 3, 4] ∧
      ([1, 2, 3, 4] : List ℚ).Sorted (· ≤ ·)) ∧
    ∃ a, analyze_data_for_chart [1, 2, 3, 4] none = .ok (.analysis a) ∧
      a.statistics.median =
        (if ([1, 2, 3, 4] : List ℚ).length % 2 = 1 then
          ([1, 2, 3, 4] : List ℚ).getD (([1, 2, 3, 4] : List ℚ).length / 2) 0
         else (([1, 2, 3, 4] : List ℚ).getD (([1, 2, 3, 4] : List ℚ).length / 2 - 1) 0 +
           ([1, 2, 3, 4] : List ℚ).getD (([1, 2, 3, 4] : List ℚ).length / 2) 0) / 2) :=
  ⟨⟨by simp, by norm_num [meanOf], List.Perm.refl _, by norm_num [List.sorted_cons]⟩,
   C6_median_of_sorted [1, 2, 3, 4] [1, 2, 3, 4] (by simp) (by norm_num [meanOf])
     (List.Perm.refl _) (by norm_num [List.sorted_cons])⟩

/-- C7: whenever `analyze` produces a report (non-empty series, nonzero
mean), the reported variance is the population variance — the mean of
squared deviations with divisor `count`, not `count - 1` — rounded to two
decimals; the reported standard deviation is the square root of the
(unrounded) population variance, rounded to two decimals; the reported
mean is rounded to two decimals; and the reported median, min, max and
range are the exact (unrounded) values. -/
theorem C7_variance_and_rounding (S : List ℚ) (hS : S ≠ []) (hm : meanOf S ≠ 0) :
    ∃ a, analyze_data_for_chart S none = .ok (.analysis a) ∧
      a.statistics.variance =
        round2 ((S.map (fun x => (x - S.sum / (S.length : ℚ)) ^ 2)).sum / (S.length : ℚ)) ∧
      a.statistics.std_dev =
        round2R (Real.sqrt
          (((S.map (fun x => (x - S.sum / (S.length : ℚ)) ^ 2)).sum / (S.length : ℚ) : ℚ) : ℝ)) ∧
      a.statistics.mean = round2 (S.sum / (S.length : ℚ)) ∧
      a.statistics.median = medianOf S ∧
      a.statistics.min = pyMin S ∧
      a.statistics.max = pyMax S ∧
      a.statistics.range = pyMax S - pyMin S := by
  refine ⟨_, analyze_ok S none hS hm, ?_, ?_, rfl, rfl, rfl, rfl, rfl⟩
  · simp [varOf, meanOf]
  · simp [varOf, meanOf]

theorem C7_witness :
    (([1, 3] : List ℚ) ≠ [] ∧ meanOf [1, 3] ≠ 0) ∧
    ∃ a, analyze_data_for_chart [1, 3] none = .ok (.analysis a) ∧
      a.statistics.variance =
        round2 ((([1, 3] : List ℚ).map
          (fun x => (x - ([1, 3] : List ℚ).sum / (([1, 3] : List ℚ).length : ℚ)) ^ 2)).sum /
          (([1, 3] : List ℚ).length : ℚ)) ∧
      a.statistics.std_dev =
        round2R (Real.sqrt
          (((([1, 3] : List ℚ).map
            (fun x => (x - ([1, 3] : List ℚ).sum / (([1, 3] : List ℚ).length : ℚ)) ^ 2)).sum /
            (([1, 3] : List ℚ).length : ℚ) : ℚ) : ℝ)) ∧
      a.statistics.mean = round2 (([1, 3] : List ℚ).sum / (([1, 3] : List ℚ).length : ℚ)) ∧
      a.statistics.median = medianOf [1, 3] ∧
      a.statistics.min = pyMin [1, 3] ∧
      a.statistics.max = pyMax [1, 3] ∧
      a.statistics.range = pyMax [1, 3] - pyMin [1, 3] :=
  ⟨⟨by simp, by norm_num [meanOf]⟩,
   C7_variance_and_rounding [1, 3] (by simp) (by norm_num [meanOf])⟩

/-- C9: whenever `analyze` produces a report (non-empty series, nonzero
mean), a series of count at most 10 — including exactly 10 — yields a
suggestion list beginning with the pie suggestion then the bar
suggestion and containing no line or area suggestion, while a count
greater than 10 yields the line suggestion then the area suggestion and
neither pie nor bar; the two branches are mutually exclusive. -/
theorem C9_suggestion_branches (S : List ℚ) (hS : S ≠ []) (hm : meanOf S ≠ 0) :
    ∃ a, analyze_data_for_chart S none = .ok (.analysis a) ∧
      (S.length ≤ 10 →
        (∃ rest, a.suggested_charts = sug_pie :: sug_bar :: rest) ∧
        ∀ s ∈ a.suggested_charts, s.type ≠ "line" ∧ s.type ≠ "area") ∧
      (10 < S.length →
        (∃ rest, a.suggested_charts = sug_line :: sug_area :: rest) ∧
        ∀ s ∈ a.suggested_charts, s.type ≠ "pie" ∧ s.type ≠ "bar") := by
  refine ⟨_, analyze_ok S none hS hm, ?_, ?_⟩
  · intro hle
    have h2 : ¬ 10 < S.length := by omega
    by_cases hsc : scatterCond (varOf S) (meanOf S)
    · refine ⟨⟨[sug_scatter], by simp [hle, h2, hsc]⟩, ?_⟩
      intro s hs
      simp [hle, h2, hsc] at hs
      rcases hs with rfl | rfl | rfl <;> exact ⟨by decide, by decide⟩
    · refine ⟨⟨[], by simp [hle, h2, hsc]⟩, ?_⟩
      intro s hs
      simp [hle, h2, hsc] at hs
      rcases hs with rfl | rfl <;> exact ⟨by decide, by decide⟩
  · intro hgt
    have h1 : ¬ S.length ≤ 10 := by omega
    by_cases hsc : scatterCond (varOf S) (meanOf S)
    · refine ⟨⟨[sug_scatter], by simp [hgt, h1, hsc]⟩, ?_⟩
      intro s hs
      simp [hgt, h1, hsc] at hs
      rcases hs with rfl | rfl | rfl <;> exact ⟨by decide, by decide⟩
    · refine ⟨⟨[], by simp [hgt, h1, hsc]⟩, ?_⟩
      intro s hs
      simp [hgt, h1, hsc] at hs
      rcases hs with rfl | rfl <;> exact ⟨by decide, by decide⟩

theorem C9_witness :
    (([12, 45, 23, 67, 89, 34, 56, 78, 90, 23] : List ℚ) ≠ [] ∧
      meanOf [12, 45, 23, 67, 89, 34, 56, 78, 90, 23] ≠ 0 ∧
      ([12, 45, 23, 67, 89, 34, 56, 78, 90, 23] : List ℚ).length ≤ 10) ∧
    ∃ a, analyze_data_for_chart [12, 45, 23, 67, 89, 34, 56, 78, 90, 23] none =
        .ok (.analysis a) ∧
      (([12, 45, 23, 67, 89, 34, 56, 78, 90, 23] : List ℚ).length ≤ 10 →
        (∃ rest, a.suggested_charts = sug_pie :: sug_bar :: rest) ∧
        ∀ s ∈ a.suggested_charts, s.type ≠ "line" ∧ s.type ≠ "area") ∧
      (10 < ([12, 45, 23, 67, 89, 34, 56, 78, 90, 23] : List ℚ).length →
        (∃ rest, a.suggested_charts = sug_line :: sug_area :: rest) ∧
        ∀ s ∈ a.suggested_charts, s.type ≠ "pie" ∧ s.type ≠ "bar") :=
  ⟨⟨by simp, by norm_num [meanOf], by simp⟩,
   C9_suggestion_branches [12, 45, 23, 67, 89, 34, 56, 78, 90, 23]
     (by simp) (by norm_num [meanOf])⟩

end ChartMcp
